import Mathlib

/-!
# Verification of rbench (remote Go benchmark runner)

Shallow embedding of the rbench CLI tool (src/main.go, src/aws.go).
The tool cross-compiles a Go benchmark binary, provisions an EC2
instance, uploads the binary, runs it over ssh streaming the output,
and terminates the instance on completion or interrupt.

External effects (AWS API calls, the filesystem, process execution,
TCP dials, random draws, OS signals) are modelled as explicit inputs:
each effectful call site becomes a field of an environment structure,
and the Go control flow around those calls is translated literally.
-/

namespace RBench

/-! ## Flags (src/main.go lines 27-37)

Go flag values as parsed locally.  Go `int` is modelled as `Int`. -/

structure Flags where
  bench : String        -- -bench, default "."
  count : Int           -- -count, default 5
  cpu : Int             -- -cpu, default 0
  benchmem : Bool       -- -benchmem, default false
  runPattern : String   -- -run, default "NONE"
  instanceType : String -- -type, default "t2.micro"
  deriving Repr, DecidableEq

/-- Default values of the flags (src/main.go lines 29-36). -/
def defaultFlags : Flags :=
  { bench := ".", count := 5, cpu := 0, benchmem := false,
    runPattern := "NONE", instanceType := "t2.micro" }

/-- Go `fmt` verb `%t` on a `bool`. -/
def goFormatBool : Bool → String
  | true => "true"
  | false => "false"

/-- The function `privateKeyPath` (src/aws.go lines 205-207):
`os.Getenv("HOME") + "/.ssh/" + awsKeyName + ".pem"`. -/
def privateKeyPath (home awsKeyName : String) : String :=
  home ++ "/.ssh/" ++ awsKeyName ++ ".pem"

/-- The key-pair name built in `initAWS` (src/aws.go line 45):
`"rbench-" + awsUserName`. -/
def awsKeyName (awsUserName : String) : String :=
  "rbench-" ++ awsUserName

/-! ## sshExec (src/main.go lines 120-133)

The argument list handed to the `ssh` command.  The source first builds
a fixed 8-element slice and then appends `-test.cpu` when `*cpuFlag > 0`. -/

/-- The initial `args` slice of `sshExec` (src/main.go lines 121-128). -/
def sshBaseArgs (f : Flags) (publicIP home user : String) : List String :=
  [ "-i", privateKeyPath home (awsKeyName user),
    "ubuntu@" ++ publicIP,
    "cd /tmp && ./bench",
    "-test.bench=" ++ f.bench,
    "-test.count=" ++ toString f.count,
    "-test.benchmem=" ++ goFormatBool f.benchmem,
    "-test.run=" ++ f.runPattern ]

/-- The full argument list of `sshExec` after the conditional append
(src/main.go lines 129-131). -/
def sshExecArgs (f : Flags) (publicIP home user : String) : List String :=
  sshBaseArgs f publicIP home user ++
    (if 0 < f.cpu then ["-test.cpu=" ++ toString f.cpu] else [])

/-! ## scp (src/main.go lines 155-164) -/

/-- The remote destination of the upload (src/main.go line 156):
`ubuntu@<ip>:/tmp/bench`. -/
def scpDest (publicIP : String) : String :=
  "ubuntu@" ++ publicIP ++ ":/tmp/bench"

/-- The argument list handed to the `scp` command (src/main.go line 156). -/
def scpArgs (benchFileName publicIP home user : String) : List String :=
  [ "-o", "StrictHostKeyChecking=no",
    "-i", privateKeyPath home (awsKeyName user),
    benchFileName, scpDest publicIP ]

/-! ## initAWS key-pair creation (src/aws.go lines 44-64)

`CreateKeyPair` either succeeds with key material or fails with an error
string; on success the key material is written to a file (which may
itself fail).  A failure whose message contains
`"InvalidKeyPair.Duplicate"` is swallowed. -/

/-- Go `strings.Contains s sub`: `sub` occurs as a substring of `s`. -/
def goContains (s sub : String) : Bool :=
  decide (List.IsInfix sub.data s.data)

/-- The key-pair portion of `initAWS` (src/aws.go lines 48-64).
`createKeyPair` is the provider's response: key material on success,
an error string on failure.  `writeFile` is the result of writing the
key material to disk (`none` = success).  Returns `none` when `initAWS`
continues without error, `some e` when it returns the fatal error `e`. -/
def initAWSKeyPair (createKeyPair : Except String String)
    (writeFile : String → Option String) : Option String :=
  match createKeyPair with
  | .ok keyMaterial =>
      match writeFile keyMaterial with
      | some e => some ("unable to write private key to file, " ++ e)
      | none => none
  | .error e =>
      if goContains e "InvalidKeyPair.Duplicate" then none else some e

/-! ## startInstance (src/aws.go lines 109-190) -/

/-- One EC2 instance as returned by the provider. -/
structure Ec2Instance where
  instanceId : String
  deriving Repr, DecidableEq

/-- The provider's `RunInstances` response: the list of created
instances. -/
structure RunInstancesOutput where
  instances : List Ec2Instance
  deriving Repr, DecidableEq

/-- The `RunInstances` request fields set by `startInstance`
(src/aws.go lines 129-154). -/
structure RunInstancesInput where
  imageId : String
  instanceType : String
  minCount : Int
  maxCount : Int
  keyName : String
  deriving Repr, DecidableEq

/-- Instance architecture (src/aws.go lines 67-73). -/
inductive InstanceArch where
  | archUnknown
  | archArm
  | archX86
  deriving Repr, DecidableEq

/-- AMI selection in `startInstance` (src/aws.go lines 114-124). -/
def chooseAMI (arch : InstanceArch) : String :=
  if arch = .archArm then "ami-01ebf7c0e446f85f9" else "ami-0ea3c35c5c3284d82"

/-- The `RunInstances` request built by `startInstance`
(src/aws.go lines 129-154). -/
def runInstancesRequest (arch : InstanceArch) (f : Flags) (user : String) :
    RunInstancesInput :=
  { imageId := chooseAMI arch
    instanceType := f.instanceType
    minCount := 1
    maxCount := 1
    keyName := awsKeyName user }

/-- Handling of the `RunInstances` response (src/aws.go lines 155-161):
propagate the call error, reject any instance count other than 1, and
otherwise return the id of the single instance (`Instances[0]`). -/
def launchOutcome (runResult : Except String RunInstancesOutput) :
    Except String String :=
  match runResult with
  | .error e => .error ("unable to run instance, " ++ e)
  | .ok out =>
      if out.instances.length = 1 then
        match out.instances.head? with
        | some inst => .ok inst.instanceId
        | none => .error "expected 1 instance, got 0"
      else
        .error ("expected 1 instance, got " ++ toString out.instances.length)

/-- The dial loop of `startInstance` (src/aws.go lines 177-186):
`for i := 0; i < 5; i++`, attempt `i` dials port 22 and the loop stops
at the first success.  `dialOk i` tells whether the `i`-th dial
succeeds.  Returns `true` when a dial succeeded within the fuel. -/
def probeSSH (dialOk : Nat → Bool) (i : Nat) : Nat → Bool
  | 0 => false
  | fuel + 1 => if dialOk i then true else probeSSH dialOk (i + 1) fuel

/-- Whether `startInstance` reaches an open SSH port: the dial loop of
src/aws.go lines 177-186 runs at most 5 iterations. -/
def sshReachable (dialOk : Nat → Bool) : Bool :=
  probeSSH dialOk 0 5

/-- The effectful environment of `startInstance` after the request is
built: the `RunInstances` response, the running-state waiter's result
(public IP on success, error after the 2-minute timeout), and the
outcome of each TCP dial of port 22. -/
structure StartEnv where
  runResult : Except String RunInstancesOutput
  waitResult : Except String String
  dialOk : Nat → Bool

/-- The function `startInstance` (src/aws.go lines 109-190), returning the Go
result `(publicIP, instanceID)` or the error, paired with whether
`terminateInstance` was called inside `startInstance` before
returning (src/aws.go lines 170 and 188). -/
def startInstance (env : StartEnv) :
    Except String (String × String) × Bool :=
  match launchOutcome env.runResult with
  | .error e => (.error e, false)
  | .ok instanceID =>
      match env.waitResult with
      | .error e =>
          (.error ("error waiting for instance to be running, " ++ e), true)
      | .ok publicIP =>
          if sshReachable env.dialOk then
            (.ok (publicIP, instanceID), false)
          else
            (.error "unable to connect to instance", true)

/-! ## compileBenchmarkBinary and randString (src/main.go lines 166-187, 218-226) -/

/-- The letter alphabet of `randString` (src/main.go line 220). -/
def letters : List Char := "abcdefghijklmnopqrstuvwxyz".data

/-- The function `randString n` (src/main.go lines 218-226): byte `i` is
`letters[rand.Intn(len(letters))]`.  The random source is modelled by
`rnd`, the stream of values returned by successive `rand.Intn(26)`
calls; `% 26` records that `rand.Intn(26)` yields a value below 26. -/
def randString (rnd : Nat → Nat) (n : Nat) : String :=
  String.mk ((List.range n).map fun i => letters.getD (rnd i % 26) 'a')

/-- The environment of the `go test -c` command (src/main.go line 172):
`os.Environ()` with the two cross-compilation variables appended. -/
def compileCommandEnv (osEnviron : List String) : List String :=
  osEnviron ++ ["GOOS=linux", "GOARCH=amd64"]

/-- Effectful inputs of `compileBenchmarkBinary`: the random stream,
the result of running `go test -c -o <file>` (`none` = success), and
whether `os.Stat` finds a given file. -/
structure CompileEnv where
  rnd : Nat → Nat
  goTestRun : String → Option String
  statExists : String → Bool

/-- The function `compileBenchmarkBinary` (src/main.go lines 166-187): picks the
output name `/tmp/bench-<randString 7>`, runs the cross build, then
checks the binary exists before returning its name. -/
def compileBenchmarkBinary (env : CompileEnv) : Except String String :=
  let benchFileName := "/tmp/bench-" ++ randString env.rnd 7
  match env.goTestRun benchFileName with
  | some e => .error ("failed to cross build the package: " ++ e)
  | none =>
      if env.statExists benchFileName then .ok benchFileName
      else .error "binary not found"

/-! ## main (src/main.go lines 41-118): sequential step structure

`main` is a straight line of steps, each aborting the run on failure.
`MainEnv` records the outcome of each effectful step; `mainTrace`
replays `main`'s control flow over those outcomes, returning the list
of steps that were started, in order, and the error printed (if any).

On upload (`scp`) or benchmark (`sshExec`) failure the worker goroutine
prints the error and closes `sigChan`, after which `main` unblocks,
calls `terminateInstance` and exits — so those traces end in
`terminate` (src/main.go lines 89-94, 104-108, 112-113). -/

inductive Step where
  | gitCommit
  | compile
  | initAws
  | start
  | upload
  | execBench
  | terminate
  deriving Repr, DecidableEq

/-- The effectful step outcomes seen by one run of `main`.
`Except`/`Option` errors model a non-nil Go `error`. -/
structure MainEnv where
  gitResult : Except String String
  compileResult : Except String String
  initResult : Option String
  startResult : Except String (String × String)
  scpResult : Option String
  sshResult : Option String

/-- Replay of `main` (src/main.go lines 41-118): which steps run, in
order, and the error printed (`none` when the benchmark completed). -/
def mainTrace (env : MainEnv) : List Step × Option String :=
  match env.gitResult with
  | .error e => ([.gitCommit], some e)
  | .ok _ =>
  match env.compileResult with
  | .error e => ([.gitCommit, .compile], some e)
  | .ok _ =>
  match env.initResult with
  | some e => ([.gitCommit, .compile, .initAws], some e)
  | none =>
  match env.startResult with
  | .error e => ([.gitCommit, .compile, .initAws, .start], some e)
  | .ok _ =>
  match env.scpResult with
  | some e =>
      ([.gitCommit, .compile, .initAws, .start, .upload, .terminate], some e)
  | none =>
  match env.sshResult with
  | some e =>
      ([.gitCommit, .compile, .initAws, .start, .upload, .execBench,
        .terminate], some e)
  | none =>
      ([.gitCommit, .compile, .initAws, .start, .upload, .execBench,
        .terminate], none)

/-! ## Signal handling after instance creation (src/main.go lines 79-117)

After `startInstance` returns, `main` executes, in order: create
`sigChan` (line 80), register the signal handler (`signal.Notify`,
line 82), spawn the worker goroutine (lines 84-109), block on
`<-sigChan` (line 112), call `terminateInstance` (line 113) and exit
(line 116).

An interrupt (SIGINT/SIGTERM/...) delivered before `signal.Notify`
has executed is handled by the Go runtime's default disposition: the
process dies immediately, executing nothing further.  A signal
delivered after registration is sent to `sigChan`, so `main` unblocks
and runs the remaining actions; the worker closing `sigChan` on
completion unblocks `main` the same way.  The only observable we
verify — how many times `terminateInstance` is issued — is the same
in every interleaving of the worker with `main` once the handler is
registered, because `callTerminate` occurs only in `main`, once,
after the receive. -/

inductive MainAction where
  | mkChan
  | notifySignals
  | spawnWorker
  | recvSignal
  | callTerminate
  | exitZero
  deriving Repr, DecidableEq

/-- The post-`startInstance` actions of `main`, in program order. -/
def mainPostStart : List MainAction :=
  [.mkChan, .notifySignals, .spawnWorker, .recvSignal, .callTerminate,
   .exitZero]

/-- Actions executed after `startInstance` returns, when an interrupt
arrives after `sigPoint` of them have executed (`none` = no signal;
the worker completes and closes the channel).  A signal arriving
before `signal.Notify` has executed (fewer than 2 actions done) kills
the process on the spot; otherwise the run proceeds to termination
and exit. -/
def postStartTrace (sigPoint : Option Nat) : List MainAction :=
  match sigPoint with
  | none => mainPostStart
  | some k => if k < 2 then mainPostStart.take k else mainPostStart

/-- Number of `terminateInstance` calls issued before process exit in
the scenario `sigPoint`. -/
def terminateCount (sigPoint : Option Nat) : Nat :=
  (postStartTrace sigPoint).count .callTerminate

/-! ## Theorems -/

/-- C1: for every invocation in which the local build succeeds, the
remote execution command constructed by `sshExec` embeds exactly the
benchmark flag values parsed locally: positions 4-7 of the argument
list carry `-test.bench`, `-test.count`, `-test.benchmem` and
`-test.run` with the locally parsed values, and the arguments beyond
those are exactly `-test.cpu=<cpu>` when the local cpu flag is
positive and nothing otherwise. -/
theorem sshExec_embeds_local_flags (f : Flags) (publicIP home user : String) :
    (sshExecArgs f publicIP home user)[4]? = some ("-test.bench=" ++ f.bench) ∧
    (sshExecArgs f publicIP home user)[5]? = some ("-test.count=" ++ toString f.count) ∧
    (sshExecArgs f publicIP home user)[6]? =
      some ("-test.benchmem=" ++ goFormatBool f.benchmem) ∧
    (sshExecArgs f publicIP home user)[7]? = some ("-test.run=" ++ f.runPattern) ∧
    (sshExecArgs f publicIP home user).drop 8 =
      (if 0 < f.cpu then ["-test.cpu=" ++ toString f.cpu] else []) := by
  by_cases h : 0 < f.cpu <;>
    simp [sshExecArgs, sshBaseArgs, h]

/-- C9: the remote path the transfer step uploads to equals the path
the execution step runs: the `scp` destination is
`ubuntu@<ip>:<dir>/<file>` for the same directory `dir` the `ssh`
command changes into and the same binary name `file` it executes, for
every choice of flags. -/
theorem upload_path_matches_exec_path (f : Flags)
    (benchFileName publicIP home user : String) :
    ∃ dir file : String,
      (sshExecArgs f publicIP home user)[3]? =
        some ("cd " ++ dir ++ " && ./" ++ file) ∧
      (scpArgs benchFileName publicIP home user)[5]? =
        some ("ubuntu@" ++ publicIP ++ ":" ++ (dir ++ "/" ++ file)) := by
  refine ⟨"/tmp", "bench", ?_, ?_⟩ <;>
    simp [sshExecArgs, sshBaseArgs, scpArgs, scpDest, String.append_assoc]

/-- C3: key-pair creation in `initAWS` is idempotent: a `CreateKeyPair`
failure whose message contains `InvalidKeyPair.Duplicate` is not
fatal (`initAWS` continues and returns no error), while any other
`CreateKeyPair` error is returned as fatal. -/
theorem initAWS_duplicate_key_not_fatal (e : String)
    (writeFile : String → Option String) :
    (goContains e "InvalidKeyPair.Duplicate" = true →
      initAWSKeyPair (.error e) writeFile = none) ∧
    (goContains e "InvalidKeyPair.Duplicate" = false →
      initAWSKeyPair (.error e) writeFile = some e) := by
  constructor <;> intro h <;> simp [initAWSKeyPair, h]

/-- Witness for C3 at concrete provider errors: the duplicate-key
error is swallowed, an authentication failure is returned. -/
theorem initAWS_duplicate_key_not_fatal_witness :
    initAWSKeyPair (.error "api error InvalidKeyPair.Duplicate: exists")
      (fun _ => none) = none ∧
    initAWSKeyPair (.error "api error AuthFailure") (fun _ => none) =
      some "api error AuthFailure" :=
  ⟨(initAWS_duplicate_key_not_fatal _ _).1 (by decide),
   (initAWS_duplicate_key_not_fatal _ _).2 (by decide)⟩

/-- The dial loop with fuel `fuel` starting at attempt `i` succeeds
exactly when one of the next `fuel` attempts succeeds. -/
theorem probeSSH_eq_true_iff (dialOk : Nat → Bool) (fuel : Nat) :
    ∀ i, probeSSH dialOk i fuel = true ↔
      ∃ j, j < fuel ∧ dialOk (i + j) = true := by
  induction fuel with
  | zero => intro i; simp [probeSSH]
  | succ n ih =>
      intro i
      rw [probeSSH]
      by_cases h : dialOk i = true
      · simp only [h, if_true, true_iff]
        exact ⟨0, Nat.succ_pos n, by simpa using h⟩
      · rw [if_neg h, ih (i + 1)]
        constructor
        · rintro ⟨j, hj, hd⟩
          exact ⟨j + 1, by omega, by simpa [Nat.add_assoc, Nat.add_comm 1 j] using hd⟩
        · rintro ⟨j, hj, hd⟩
          match j with
          | 0 => exact absurd (by simpa using hd) h
          | j + 1 =>
              exact ⟨j, by omega, by simpa [Nat.add_assoc, Nat.add_comm 1 j] using hd⟩

/-- The SSH-reachability check of `startInstance` succeeds exactly when
one of the first five dials succeeds. -/
theorem sshReachable_eq_true_iff (dialOk : Nat → Bool) :
    sshReachable dialOk = true ↔ ∃ i, i < 5 ∧ dialOk i = true := by
  rw [sshReachable, probeSSH_eq_true_iff]
  simp

/-- C7: `startInstance` launches exactly one virtual machine: the
`RunInstances` request carries minimum and maximum count 1; a provider
response with any number of instances other than 1 is rejected with an
error; and on a single-instance response with a successful wait and a
reachable SSH port, `startInstance` returns the public IP and the id
of that single instance. -/
theorem startInstance_single_instance (arch : InstanceArch) (f : Flags)
    (user : String) :
    (runInstancesRequest arch f user).minCount = 1 ∧
    (runInstancesRequest arch f user).maxCount = 1 ∧
    (∀ out : RunInstancesOutput, out.instances.length ≠ 1 →
      ∃ e, launchOutcome (.ok out) = .error e) ∧
    (∀ inst : Ec2Instance, launchOutcome (.ok ⟨[inst]⟩) = .ok inst.instanceId) ∧
    (∀ (inst : Ec2Instance) (ip : String) (dialOk : Nat → Bool),
      sshReachable dialOk = true →
      (startInstance ⟨.ok ⟨[inst]⟩, .ok ip, dialOk⟩).1 =
        .ok (ip, inst.instanceId)) := by
  refine ⟨rfl, rfl, ?_, ?_, ?_⟩
  · intro out h
    exact ⟨"expected 1 instance, got " ++ toString out.instances.length,
      by simp [launchOutcome, h]⟩
  · intro inst
    simp [launchOutcome]
  · intro inst ip dialOk h
    simp [startInstance, launchOutcome, h]

/-- Witness for C7: a two-instance response is rejected, a
single-instance response with an open port yields that instance. -/
theorem startInstance_single_instance_witness :
    (∃ e, launchOutcome (.ok ⟨[⟨"i-a"⟩, ⟨"i-b"⟩]⟩) = .error e) ∧
    (startInstance ⟨.ok ⟨[⟨"i-a"⟩]⟩, .ok "1.2.3.4", fun _ => true⟩).1 =
      .ok ("1.2.3.4", "i-a") :=
  ⟨(startInstance_single_instance .archX86 defaultFlags "u").2.2.1 _ (by decide),
   (startInstance_single_instance .archX86 defaultFlags "u").2.2.2.2 ⟨"i-a"⟩
     "1.2.3.4" (fun _ => true) (by decide)⟩

/-- A dial oracle for which port 22 becomes reachable only from the
sixth attempt on: the port is eventually reachable, but not within
the five probes the loop performs. -/
def lateDial : Nat → Bool := fun i => decide (5 ≤ i)

/-- A `startInstance` environment whose launch and wait succeed and
whose SSH port becomes reachable at the sixth probe. -/
def lateDialEnv : StartEnv :=
  { runResult := .ok ⟨[⟨"i-0abc"⟩]⟩
    waitResult := .ok "3.14.15.9"
    dialOk := lateDial }

/-- C4 counterexample: the probe loop is bounded at five attempts
(src/aws.go line 178, `for i := 0; i < 5; i++`).  In an environment
where the port eventually becomes reachable (at the sixth probe),
provisioning nevertheless fails and the instance is terminated, so
provisioning does not succeed whenever the port eventually becomes
reachable. -/
theorem ssh_probe_unbounded_cex :
    (∃ n, lateDialEnv.dialOk n = true) ∧
    (startInstance lateDialEnv).1 = .error "unable to connect to instance" ∧
    (startInstance lateDialEnv).2 = true :=
  ⟨⟨5, by decide⟩, rfl, rfl⟩

/-- C4 amended: after the instance reports running, `startInstance`
probes the SSH port at most five times; given a successful launch of
one instance and a successful wait, provisioning succeeds exactly when
one of the first five probes finds the port reachable. -/
theorem ssh_probe_five_attempts (inst : Ec2Instance) (ip : String)
    (dialOk : Nat → Bool) :
    (startInstance ⟨.ok ⟨[inst]⟩, .ok ip, dialOk⟩).1 =
      .ok (ip, inst.instanceId) ↔
    ∃ i, i < 5 ∧ dialOk i = true := by
  rw [← sshReachable_eq_true_iff]
  by_cases h : sshReachable dialOk = true <;>
    simp [startInstance, launchOutcome, h]

/-- Witness for C4's amended theorem: with the port reachable at the
first probe, provisioning returns the instance's IP and id. -/
theorem ssh_probe_five_attempts_witness :
    (startInstance ⟨.ok ⟨[⟨"i-0abc"⟩]⟩, .ok "3.14.15.9", fun _ => true⟩).1 =
      .ok ("3.14.15.9", "i-0abc") :=
  (ssh_probe_five_attempts ⟨"i-0abc"⟩ "3.14.15.9" (fun _ => true)).mpr
    ⟨0, by decide, rfl⟩

/-- C8: if provisioning fails after the instance was created — the
launch succeeded but `startInstance` returns an error (wait timeout or
unreachable SSH port) — then `terminateInstance` is called before
returning, so a failed provisioning run does not leak a running
instance. -/
theorem failed_provisioning_terminates (env : StartEnv) (instanceID : String)
    (hlaunch : launchOutcome env.runResult = .ok instanceID)
    (e : String) (herr : (startInstance env).1 = .error e) :
    (startInstance env).2 = true := by
  rcases hw : env.waitResult with e' | ip
  · simp [startInstance, hlaunch, hw]
  · by_cases hr : sshReachable env.dialOk = true
    · simp [startInstance, hlaunch, hw, hr] at herr
    · simp [startInstance, hlaunch, hw, hr]

/-- Witness for C8: a run whose wait for the running state fails calls
`terminateInstance` inside `startInstance`. -/
theorem failed_provisioning_terminates_witness :
    (startInstance ⟨.ok ⟨[⟨"i-0abc"⟩]⟩, .error "exceeded wait time",
      fun _ => false⟩).2 = true :=
  failed_provisioning_terminates
    ⟨.ok ⟨[⟨"i-0abc"⟩]⟩, .error "exceeded wait time", fun _ => false⟩
    "i-0abc" rfl
    "error waiting for instance to be running, exceeded wait time" rfl

/-- C5: every failing step fails fast and terminally.  No step is ever
started twice (the executed-step trace has no duplicates), and a build
failure, an AWS-initialisation failure, a provisioning failure or an
upload failure each abort the run with exactly that error printed and
no later benchmark work: after a build failure nothing past the build
runs; after a provisioning failure neither upload nor execution runs;
after an upload failure the benchmark is never executed (only the
teardown runs). -/
theorem steps_fail_fast (env : MainEnv) :
    (mainTrace env).1.Nodup ∧
    (∀ g e, env.gitResult = .ok g → env.compileResult = .error e →
      (mainTrace env).2 = some e ∧
      Step.initAws ∉ (mainTrace env).1 ∧ Step.start ∉ (mainTrace env).1 ∧
      Step.upload ∉ (mainTrace env).1 ∧ Step.execBench ∉ (mainTrace env).1) ∧
    (∀ g c e, env.gitResult = .ok g → env.compileResult = .ok c →
      env.initResult = some e →
      (mainTrace env).2 = some e ∧
      Step.start ∉ (mainTrace env).1 ∧ Step.upload ∉ (mainTrace env).1 ∧
      Step.execBench ∉ (mainTrace env).1) ∧
    (∀ g c e, env.gitResult = .ok g → env.compileResult = .ok c →
      env.initResult = none → env.startResult = .error e →
      (mainTrace env).2 = some e ∧
      Step.upload ∉ (mainTrace env).1 ∧ Step.execBench ∉ (mainTrace env).1) ∧
    (∀ g c s e, env.gitResult = .ok g → env.compileResult = .ok c →
      env.initResult = none → env.startResult = .ok s →
      env.scpResult = some e →
      (mainTrace env).2 = some e ∧ Step.execBench ∉ (mainTrace env).1) := by
  obtain ⟨g, c, i, s, u, x⟩ := env
  refine ⟨?_, ?_, ?_, ?_, ?_⟩
  · cases g <;> cases c <;> cases i <;> cases s <;> cases u <;> cases x <;>
      simp [mainTrace]
  all_goals
    intros
    subst_vars
    simp_all [mainTrace]

/-- Witness for C5: a run whose build fails stops with the build error
and runs nothing afterwards; a run whose upload fails never executes
the benchmark. -/
theorem steps_fail_fast_witness :
    ((mainTrace ⟨.ok "abc123", .error "compile failed", none,
        .error "unused", none, none⟩).2 = some "compile failed" ∧
      Step.initAws ∉ (mainTrace ⟨.ok "abc123", .error "compile failed", none,
        .error "unused", none, none⟩).1 ∧
      Step.start ∉ (mainTrace ⟨.ok "abc123", .error "compile failed", none,
        .error "unused", none, none⟩).1 ∧
      Step.upload ∉ (mainTrace ⟨.ok "abc123", .error "compile failed", none,
        .error "unused", none, none⟩).1 ∧
      Step.execBench ∉ (mainTrace ⟨.ok "abc123", .error "compile failed", none,
        .error "unused", none, none⟩).1) ∧
    ((mainTrace ⟨.ok "abc123", .ok "/tmp/bench-abcdefg", none,
        .ok ("1.2.3.4", "i-0abc"), some "scp failed", none⟩).2 =
          some "scp failed" ∧
      Step.execBench ∉ (mainTrace ⟨.ok "abc123", .ok "/tmp/bench-abcdefg",
        none, .ok ("1.2.3.4", "i-0abc"), some "scp failed", none⟩).1) :=
  ⟨(steps_fail_fast _).2.1 "abc123" "compile failed" rfl rfl,
   (steps_fail_fast _).2.2.2.2 "abc123" "/tmp/bench-abcdefg"
     ("1.2.3.4", "i-0abc") "scp failed" rfl rfl rfl rfl rfl⟩

/-- C2 counterexample: an interrupt can be received after the cloud
instance has been created but before `signal.Notify` has registered
the handler (src/main.go: `startInstance` returns at line 73, the
handler is registered at line 82).  In that window the runtime's
default disposition kills the process and the termination call is
issued zero times, not exactly once. -/
theorem interrupt_before_handler_cex :
    terminateCount (some 1) = 0 ∧ ¬ terminateCount (some 1) = 1 := by
  constructor <;> decide

/-- C2 amended: once `signal.Notify` has executed (at least the first
two post-`startInstance` actions are done), an interrupt leads to
exactly one `terminateInstance` call before exit; and in every
scenario the call is issued at most once. -/
theorem interrupt_after_handler_terminates_once :
    (∀ k, 2 ≤ k → terminateCount (some k) = 1) ∧
    (∀ p, terminateCount p ≤ 1) := by
  constructor
  · intro k hk
    simp only [terminateCount, postStartTrace]
    rw [if_neg (by omega)]
    decide
  · intro p
    match p with
    | none => decide
    | some k =>
        by_cases h : k < 2
        · match k, h with
          | 0, _ => decide
          | 1, _ => decide
        · simp only [terminateCount, postStartTrace]
          rw [if_neg h]
          decide

/-- Witness for C2's amended theorem: a signal arriving right after
the handler registration yields exactly one termination call. -/
theorem interrupt_after_handler_terminates_once_witness :
    terminateCount (some 2) = 1 ∧ terminateCount none ≤ 1 :=
  ⟨interrupt_after_handler_terminates_once.1 2 (by decide),
   interrupt_after_handler_terminates_once.2 none⟩

/-- C6: every run that reaches the execution step terminates the
instance in both exit paths.  In the step trace of `main`, any run
whose upload succeeded (hence the benchmark was executed) issues the
teardown step, whether the remote session ends in an error or
completes normally; and in the signal model, both normal completion
(the worker closes the channel) and an interrupt received once the
handler is in place (which is the case throughout the execution step)
issue exactly one `terminateInstance` call before exit. -/
theorem teardown_on_completion_and_interrupt :
    (∀ env : MainEnv, ∀ g c s,
      env.gitResult = .ok g → env.compileResult = .ok c →
      env.initResult = none → env.startResult = .ok s →
      env.scpResult = none →
      Step.execBench ∈ (mainTrace env).1 ∧
      (mainTrace env).1.count Step.terminate = 1) ∧
    terminateCount none = 1 ∧
    (∀ k, 2 ≤ k → terminateCount (some k) = 1) := by
  refine ⟨?_, by decide, ?_⟩
  · intro env g c s hg hc hi hs hu
    obtain ⟨g', c', i', s', u', x'⟩ := env
    simp_all only
    subst_vars
    cases x' <;> simp [mainTrace]
  · intro k hk
    simp only [terminateCount, postStartTrace]
    rw [if_neg (by omega)]
    decide

/-- Witness for C6: a run with a successful upload and a normally
completing remote session executes the benchmark and issues exactly
one teardown step; a signal at the blocking receive does the same. -/
theorem teardown_on_completion_and_interrupt_witness :
    (Step.execBench ∈ (mainTrace ⟨.ok "abc123", .ok "/tmp/bench-abcdefg",
        none, .ok ("1.2.3.4", "i-0abc"), none, none⟩).1 ∧
      (mainTrace ⟨.ok "abc123", .ok "/tmp/bench-abcdefg", none,
        .ok ("1.2.3.4", "i-0abc"), none, none⟩).1.count Step.terminate = 1) ∧
    terminateCount (some 3) = 1 :=
  ⟨teardown_on_completion_and_interrupt.1 _ "abc123" "/tmp/bench-abcdefg"
     ("1.2.3.4", "i-0abc") rfl rfl rfl rfl rfl,
   teardown_on_completion_and_interrupt.2.2 3 (by decide)⟩

/-- The string `randString rnd n` has length `n`. -/
theorem randString_length (rnd : Nat → Nat) (n : Nat) :
    (randString rnd n).length = n := by
  simp [randString, String.length]

/-- Every character of the alphabet used by `randString` is a
lowercase ASCII letter. -/
theorem letters_lowercase : ∀ c ∈ letters, 'a' ≤ c ∧ c ≤ 'z' := by
  decide

/-- Every character produced by `randString` is a lowercase ASCII
letter. -/
theorem randString_lowercase (rnd : Nat → Nat) (n : Nat) :
    ∀ c ∈ (randString rnd n).data, 'a' ≤ c ∧ c ≤ 'z' := by
  intro c hc
  simp only [randString, List.mem_map, List.mem_range] at hc
  obtain ⟨i, _, rfl⟩ := hc
  have h26 : rnd i % 26 < letters.length := by
    have h : rnd i % 26 < 26 := Nat.mod_lt _ (by decide)
    simpa [letters] using h
  rw [List.getD_eq_getElem letters 'a' h26]
  exact letters_lowercase _ (List.getElem_mem h26)

/-- C10: `compileBenchmarkBinary` cross-compiles with `GOOS=linux` and
`GOARCH=amd64` (the command environment contains both, whatever the
base environment; the build step reads no instance-type input at all,
as its definition shows), and on success the returned name is
`/tmp/bench-` followed by exactly 7 lowercase ASCII letters and names
a file the final `os.Stat` check found to exist. -/
theorem compile_cross_compiles_and_names (base : List String)
    (env : CompileEnv) (name : String)
    (h : compileBenchmarkBinary env = .ok name) :
    "GOOS=linux" ∈ compileCommandEnv base ∧
    "GOARCH=amd64" ∈ compileCommandEnv base ∧
    name.length = 18 ∧
    name.data.take 11 = "/tmp/bench-".data ∧
    (name.data.drop 11).length = 7 ∧
    (∀ c ∈ name.data.drop 11, 'a' ≤ c ∧ c ≤ 'z') ∧
    env.statExists name = true := by
  have hname : name = "/tmp/bench-" ++ randString env.rnd 7 ∧
      env.statExists ("/tmp/bench-" ++ randString env.rnd 7) = true := by
    simp only [compileBenchmarkBinary] at h
    cases hrun : env.goTestRun ("/tmp/bench-" ++ randString env.rnd 7) with
    | some e => rw [hrun] at h; exact absurd h (by simp)
    | none =>
        rw [hrun] at h
        by_cases hstat :
            env.statExists ("/tmp/bench-" ++ randString env.rnd 7) = true
        · rw [if_pos hstat] at h
          exact ⟨(Except.ok.injEq _ _ ▸ h).symm, hstat⟩
        · rw [if_neg hstat] at h
          exact absurd h (by simp)
  obtain ⟨rfl, hstat⟩ := hname
  have hlen11 : ("/tmp/bench-" : String).data.length = 11 := by decide
  refine ⟨by simp [compileCommandEnv], by simp [compileCommandEnv], ?_, ?_, ?_, ?_, hstat⟩
  · rw [String.length_append, randString_length]
    decide
  · rw [String.data_append, List.take_left' hlen11]
  · rw [String.data_append, List.drop_left' hlen11]
    exact randString_length env.rnd 7
  · rw [String.data_append, List.drop_left' hlen11]
    exact randString_lowercase env.rnd 7

/-- A compile environment whose random stream is constantly 0, whose
`go test -c` run succeeds and whose `os.Stat` finds every file. -/
def compileEnvDemo : CompileEnv :=
  { rnd := fun _ => 0, goTestRun := fun _ => none, statExists := fun _ => true }

/-- Witness for C10: in `compileEnvDemo` the build returns
`/tmp/bench-aaaaaaa`, which has the claimed shape. -/
theorem compile_cross_compiles_and_names_witness :
    "GOOS=linux" ∈ compileCommandEnv [] ∧
    "GOARCH=amd64" ∈ compileCommandEnv [] ∧
    ("/tmp/bench-aaaaaaa" : String).length = 18 ∧
    ("/tmp/bench-aaaaaaa" : String).data.take 11 = "/tmp/bench-".data ∧
    (("/tmp/bench-aaaaaaa" : String).data.drop 11).length = 7 ∧
    (∀ c ∈ ("/tmp/bench-aaaaaaa" : String).data.drop 11,
      'a' ≤ c ∧ c ≤ 'z') ∧
    compileEnvDemo.statExists "/tmp/bench-aaaaaaa" = true :=
  compile_cross_compiles_and_names [] compileEnvDemo "/tmp/bench-aaaaaaa" rfl

end RBench
